import Mathlib

/-!
# Verification of the EODHD MCP server core

A shallow embedding of the core logic of the `eodhd-mcp-server` repository
(`src/eodhd_mcp_server/{api_client,data_processor,server,exceptions}.py`)
together with theorems checking the natural-language specification against it.

Modelling conventions:
* Decoded JSON values are represented by the inductive `Value`
  (`null` stands for Python `None`/JSON null as well as pandas `NaN`/`NaT`);
  numbers are rationals (the payloads of interest are decimal).
* A "raw record" (a Python dict decoded from JSON) is an association list
  `List (String × Value)`; lookup takes the first matching key, and a missing
  key is treated like a null cell, exactly as a pandas `DataFrame` built from a
  list of such records presents a `NaN` cell for a record lacking a column.
* `pandas.to_datetime` on the ISO `YYYY-MM-DD` strings flowing through this
  system is modelled by `parseDate`, which encodes a date as the integer
  `yyyy*10000 + mm*100 + dd`; this encoding is order-isomorphic to calendar
  order on such dates.  A bare number cell is accepted by pandas as a
  nanosecond offset from the 1970-01-01 epoch; since sub-day resolution is
  irrelevant here it is represented by the epoch day `19700101`.
* `pandas.to_numeric(errors="coerce")` is modelled by `toNumeric` /
  `parseRat` (plain decimal literals; unparseable cells coerce to null).
* `DataFrame.sort_values` is modelled by an insertion sort with nulls placed
  last (pandas' `na_position="last"`); the theorems proved below depend only
  on the key order of the output, never on the relative order of equal keys.
* Stateful / effectful pieces (the HTTP round trips, `asyncio.sleep`,
  `datetime.now` date defaulting, logging) are made explicit: one HTTP attempt
  is an `Attempt` value, the retry loop takes the per-attempt outcomes as a
  function `ℕ → Attempt` and returns the performed back-off sleeps alongside
  the result, and each MCP tool takes the outcome of its API-client call as an
  `Except EodhdError _` argument.  Every tool is a total Lean function
  returning a `String`, which is the embedded form of "the tool never
  propagates an exception to the host".
* `DataFrame.to_string` textual layout is not reproduced; the renderers below
  produce one line per row.  No claim depends on the exact table layout.
-/

/-- A decoded JSON value (`null` also stands for pandas `NaN`/`NaT`). -/
inductive Value where
  | null : Value
  | num (q : ℚ) : Value
  | str (s : String) : Value
  | arr (xs : List Value) : Value
  | obj (fields : List (String × Value)) : Value

/-- A raw record: a Python dict decoded from JSON, as an association list. -/
abbrev RawRecord := List (String × Value)

/-- First-match lookup in a record (Python dict access). -/
def lookupField (r : RawRecord) (k : String) : Option Value :=
  match r with
  | [] => none
  | (k₀, v) :: rest => if k₀ = k then some v else lookupField rest k

/-- The cell a `DataFrame` built from records presents for column `k` of
record `r`: the stored value, or a null (`NaN`) cell when the key is absent. -/
def getCell (r : RawRecord) (k : String) : Value :=
  (lookupField r k).getD Value.null

/-- Whether record `r` has key `k`. -/
def hasField (r : RawRecord) (k : String) : Bool :=
  (lookupField r k).isSome

/-- The columns of `pd.DataFrame(raw)`: the union of the records' keys. -/
def dfColumns (raw : List RawRecord) : List String :=
  raw.foldl (fun acc r =>
    r.foldl (fun acc2 kv => if acc2.contains kv.1 then acc2 else acc2 ++ [kv.1]) acc) []

/-- Python truthiness of a decoded JSON value. -/
def Value.truthy : Value → Bool
  | .null => false
  | .num q => q ≠ 0
  | .str s => s ≠ ""
  | .arr xs => !xs.isEmpty
  | .obj fields => !fields.isEmpty

/-- Split a character list at every occurrence of `sep`. -/
def pyCharsSplit (sep : Char) : List Char → List (List Char)
  | [] => [[]]
  | c :: cs =>
    let rest := pyCharsSplit sep cs
    if c = sep then [] :: rest
    else
      match rest with
      | w :: ws => (c :: w) :: ws
      | [] => [[c]]

/-- `str.split(sep)` for a one-character separator (`String.splitOn`
restricted to the separators used in this code base). -/
def pySplitOn (sep : Char) (s : String) : List String :=
  (pyCharsSplit sep s.data).map String.mk

/-- Parse a non-empty all-digit string (`String.toNat?` semantics). -/
def pyToNat? (s : String) : Option ℕ :=
  if s.data.isEmpty then none
  else if s.data.all Char.isDigit then
    some (s.data.foldl (fun acc c => acc * 10 + (c.toNat - 48)) 0)
  else none

/-- Python `str.strip()`: drop leading and trailing whitespace. -/
def pyStrip (s : String) : String :=
  String.mk (((s.data.dropWhile Char.isWhitespace).reverse.dropWhile
    Char.isWhitespace).reverse)

/-- Python `str.upper()` for the ASCII symbols handled here. -/
def pyUpper (s : String) : String :=
  String.mk (s.data.map Char.toUpper)

/-- Python `str.endswith`. -/
def pyEndsWith (s t : String) : Bool :=
  t.data.isSuffixOf s.data

/-- `pandas.to_datetime` on an ISO `YYYY-MM-DD` string, as the integer
`yyyy*10000 + mm*100 + dd` (order-isomorphic to calendar order). -/
def parseDate (s : String) : Option ℤ :=
  match pySplitOn '-' s with
  | [y, m, d] =>
    match pyToNat? y, pyToNat? m, pyToNat? d with
    | some yn, some mn, some dn =>
      if y.length = 4 ∧ m.length = 2 ∧ d.length = 2 ∧
          1 ≤ mn ∧ mn ≤ 12 ∧ 1 ≤ dn ∧ dn ≤ 31 then
        some ((yn * 10000 + mn * 100 + dn : ℕ) : ℤ)
      else none
    | _, _, _ => none
  | _ => none

/-- A plain decimal literal (optional sign, digits, optional fraction), the
string shapes `pandas.to_numeric` meets in this system's payloads. -/
def parseRat (s : String) : Option ℚ :=
  let core := fun (t : String) =>
    match pySplitOn '.' t with
    | [w] => (pyToNat? w).map fun n => (n : ℚ)
    | [w, f] =>
      match pyToNat? w, pyToNat? f with
      | some wn, some fn => some ((wn : ℚ) + (fn : ℚ) / ((10 : ℚ) ^ f.length))
      | _, _ => none
    | _ => none
  match s.data with
  | '-' :: rest => (core (String.mk rest)).map (fun q => -q)
  | _ => core s

/-- `pd.to_datetime` on one cell.  Strict: an unparseable string raises
(modelled as `Except.error` carrying the pandas-style message); a null/`NaN`
cell becomes `NaT` (`none`); a bare number is a nanosecond epoch offset,
represented by the epoch day (sub-day resolution never matters here); a
nested array/object raises. -/
def toDatetime (v : Value) : Except String (Option ℤ) :=
  match v with
  | .null => .ok none
  | .num _ => .ok (some 19700101)
  | .str s =>
    match parseDate s with
    | some d => .ok (some d)
    | none => .error ("Unknown datetime string format: " ++ s)
  | .arr _ => .error "unhashable value in date column"
  | .obj _ => .error "unhashable value in date column"

/-- `pd.to_numeric(errors="coerce")` on one cell: numbers pass through,
parseable numeric strings convert, everything else coerces to null. -/
def toNumeric (v : Value) : Option ℚ :=
  match v with
  | .null => none
  | .num q => some q
  | .str s => parseRat s
  | .arr _ => none
  | .obj _ => none

/-- Insert `a` into `l` in front of the first element `b` with `le a b`. -/
def insertLe {α : Type} (le : α → α → Bool) (a : α) : List α → List α
  | [] => [a]
  | b :: bs => if le a b then a :: b :: bs else b :: insertLe le a bs

/-- Insertion sort by the boolean relation `le`; models the key order
produced by `DataFrame.sort_values` (the theorems below never depend on the
relative order of equal keys, which `sort_values` does not pin down). -/
def sortByLe {α : Type} (le : α → α → Bool) : List α → List α
  | [] => []
  | a :: as => insertLe le a (sortByLe le as)

theorem length_insertLe {α : Type} (le : α → α → Bool) (a : α) (l : List α) :
    (insertLe le a l).length = l.length + 1 := by
  induction l with
  | nil => rfl
  | cons b bs ih =>
    simp only [insertLe]
    by_cases h : le a b = true
    · simp [h]
    · simp [h, ih]

theorem length_sortByLe {α : Type} (le : α → α → Bool) (l : List α) :
    (sortByLe le l).length = l.length := by
  induction l with
  | nil => rfl
  | cons a as ih => simp [sortByLe, length_insertLe, ih]

theorem mem_insertLe {α : Type} (le : α → α → Bool) (a x : α) (l : List α) :
    x ∈ insertLe le a l ↔ x = a ∨ x ∈ l := by
  induction l with
  | nil => simp [insertLe]
  | cons b bs ih =>
    simp only [insertLe]
    by_cases h : le a b = true
    · rw [if_pos h]
      simp only [List.mem_cons]
    · rw [if_neg h]
      simp only [List.mem_cons, ih]
      tauto

theorem mem_sortByLe {α : Type} (le : α → α → Bool) (x : α) (l : List α) :
    x ∈ sortByLe le l ↔ x ∈ l := by
  induction l with
  | nil => simp [sortByLe]
  | cons a as ih =>
    simp [sortByLe, mem_insertLe, ih]

theorem chain_insertLe {α : Type} (le : α → α → Bool)
    (total : ∀ a b, le a b = true ∨ le b a = true) (a : α) (l : List α)
    (h : List.Chain' (fun x y => le x y = true) l) :
    List.Chain' (fun x y => le x y = true) (insertLe le a l) := by
  induction l with
  | nil => simp [insertLe]
  | cons b bs ih =>
    simp only [insertLe]
    by_cases hab : le a b = true
    · simp only [hab, if_true]
      exact List.Chain'.cons hab h
    · simp only [hab, if_false]
      have hba : le b a = true := (total a b).resolve_left hab
      have hbs := h.tail
      have hins := ih hbs
      cases bs with
      | nil =>
        simp only [insertLe]
        exact List.Chain'.cons hba (List.chain'_singleton a)
      | cons c cs =>
        have hbc : le b c = true := (List.chain'_cons.mp h).1
        simp only [insertLe] at hins ⊢
        by_cases hac : le a c = true
        · simp only [hac, if_true] at hins ⊢
          exact List.Chain'.cons hba hins
        · simp only [hac, if_false] at hins ⊢
          exact List.Chain'.cons hbc hins

theorem chain_sortByLe {α : Type} (le : α → α → Bool)
    (total : ∀ a b, le a b = true ∨ le b a = true) (l : List α) :
    List.Chain' (fun x y => le x y = true) (sortByLe le l) := by
  induction l with
  | nil => simp [sortByLe]
  | cons a as ih => exact chain_insertLe le total a (sortByLe le as) ih

/-! ## Error taxonomy (`exceptions.py`)

`AuthenticationError`, `RateLimitError` and `DataNotFoundError` are
subclasses of `APIError`; `NetworkError` and `DataProcessingError` are
siblings of `APIError` under `EODHDError`.  `str(e)` of any of them is the
message passed to the constructor. -/

/-- The exception kinds raised by the API client and the data processor. -/
inductive EodhdError where
  | authentication (msg : String) (statusCode : Option ℕ) : EodhdError
  | rateLimit (msg : String) (statusCode : Option ℕ) : EodhdError
  | dataNotFound (msg : String) (statusCode : Option ℕ) : EodhdError
  | api (msg : String) (statusCode : Option ℕ) : EodhdError
  | network (msg : String) : EodhdError
  | dataProcessing (msg : String) : EodhdError
  | other (msg : String) : EodhdError

/-- `str(e)`: the constructor message.  `other` stands for any exception
outside the repository's taxonomy (e.g. a `TypeError`), which the tool
boundary's `except Exception` clause also catches. -/
def EodhdError.message : EodhdError → String
  | .authentication msg _ => msg
  | .rateLimit msg _ => msg
  | .dataNotFound msg _ => msg
  | .api msg _ => msg
  | .network msg => msg
  | .dataProcessing msg => msg
  | .other msg => msg

/-- Whether the exception is an instance of the Python class `APIError`
(which `AuthenticationError`, `RateLimitError` and `DataNotFoundError`
subclass). -/
def EodhdError.isAPIError : EodhdError → Bool
  | .authentication _ _ => true
  | .rateLimit _ _ => true
  | .dataNotFound _ _ => true
  | .api _ _ => true
  | .network _ => false
  | .dataProcessing _ => false
  | .other _ => false

/-! ## API client (`api_client.py`) -/

/-- `EODHDClient._handle_response`: classify an HTTP response.  `status` is
the response status code and `body` the outcome of `response.json()`
(`Except.error` when the body is not valid JSON). -/
def _handle_response (status : ℕ) (body : Except String Value) :
    Except EodhdError Value :=
  if status = 401 then
    .error (.authentication "Invalid API key" (some status))
  else if status = 429 then
    .error (.rateLimit "API rate limit exceeded" (some status))
  else if status = 404 then
    .error (.dataNotFound "Data not found" (some status))
  else if status ≥ 400 then
    .error (.api ("API error: " ++ toString status) (some status))
  else
    match body with
    | .ok v => .ok v
    | .error e => .error (.dataProcessing ("Failed to parse JSON response: " ++ e))

/-- The outcome of one HTTP attempt: either a response (status code plus the
result of parsing its body as JSON) or a transport-level failure
(`httpx.RequestError`: connection/DNS/timeout). -/
inductive Attempt where
  | response (status : ℕ) (body : Except String Value) : Attempt
  | requestError (msg : String) : Attempt

/-- The `for attempt in range(max_retries)` loop body of
`EODHDClient._make_request`, with the remaining iterations as structural
fuel (`fuel = maxRetries - k` at the call sites) and `k` the 0-indexed
attempt counter.  Returns the result together with the list of back-off
delays slept (each `rate_limit_delay * 2 ^ attempt`). -/
def _make_request_loop (delay : ℚ) (maxRetries : ℕ) (attempts : ℕ → Attempt) :
    ℕ → ℕ → Except EodhdError Value × List ℚ
  | 0, _ =>
    (.error (.network ("Failed to make request after " ++ toString maxRetries ++ " attempts")), [])
  | fuel + 1, k =>
    match attempts k with
    | .response status body =>
      if status = 429 ∧ k < maxRetries - 1 then
        let r := _make_request_loop delay maxRetries attempts fuel (k + 1)
        (r.1, delay * 2 ^ k :: r.2)
      else
        (_handle_response status body, [])
    | .requestError msg =>
      if k = maxRetries - 1 then
        (.error (.network ("Network error after " ++ toString maxRetries ++ " attempts: " ++ msg)), [])
      else
        let r := _make_request_loop delay maxRetries attempts fuel (k + 1)
        (r.1, delay * 2 ^ k :: r.2)

/-- `EODHDClient._make_request`: run the retry loop from attempt 0.
`attempts k` is the outcome the network would produce for attempt `k`. -/
def _make_request (delay : ℚ) (maxRetries : ℕ) (attempts : ℕ → Attempt) :
    Except EodhdError Value × List ℚ :=
  _make_request_loop delay maxRetries attempts maxRetries 0

/-! ## Data processor (`data_processor.py`)

The pandas `DataFrame` pipelines are embedded row-wise: a cell of column `c`
in the frame built from a record list is `getCell r c` (the stored value, or
null when the record lacks the key), which is exactly how missing keys
surface as `NaN` cells.  `reset_index(drop=True)` renumbers rows from 0; in
the list embedding rows are positional, so renumbering is inherent. -/

/-- Ascending key order with nulls last (`sort_values` with
`na_position="last"`), on optional integers (dates). -/
def optLeAsc (a b : Option ℤ) : Bool :=
  match a, b with
  | some x, some y => x ≤ y
  | some _, none => true
  | none, some _ => false
  | none, none => true

/-- Descending key order with nulls last (`sort_values(ascending=False)`),
on optional rationals (weights). -/
def optLeDesc (a b : Option ℚ) : Bool :=
  match a, b with
  | some x, some y => y ≤ x
  | some _, none => true
  | none, some _ => false
  | none, none => true

theorem optLeAsc_total (a b : Option ℤ) : optLeAsc a b = true ∨ optLeAsc b a = true := by
  cases a with
  | none => cases b <;> simp [optLeAsc]
  | some x =>
    cases b with
    | none => simp [optLeAsc]
    | some y => simpa [optLeAsc] using le_total x y

theorem optLeDesc_total (a b : Option ℚ) : optLeDesc a b = true ∨ optLeDesc b a = true := by
  cases a with
  | none => cases b <;> simp [optLeDesc]
  | some x =>
    cases b with
    | none => simp [optLeDesc]
    | some y => simpa [optLeDesc] using le_total y x

/-- The six required columns of `process_eod_data`. -/
def eodRequiredColumns : List String :=
  ["date", "open", "high", "low", "close", "volume"]

/-- One row of a processed EOD table: the date parsed to a date type, the
five numeric fields coerced to numeric-or-null, remaining upstream columns
passed through unchanged. -/
structure EodRow where
  date : Option ℤ
  open_ : Option ℚ
  high : Option ℚ
  low : Option ℚ
  close : Option ℚ
  volume : Option ℚ
  rest : RawRecord

/-- Process one record of `process_eod_data`: strict `pd.to_datetime` on the
date cell, `pd.to_numeric(errors="coerce")` on the five numeric cells.
A record lacking one of the six keys presents a null cell for it, which is
also what the synthesized all-null columns for frame-wide missing columns
present. -/
def processEodRow (r : RawRecord) : Except String EodRow := do
  let d ← toDatetime (getCell r "date")
  .ok { date := d
        open_ := toNumeric (getCell r "open")
        high := toNumeric (getCell r "high")
        low := toNumeric (getCell r "low")
        close := toNumeric (getCell r "close")
        volume := toNumeric (getCell r "volume")
        rest := r.filter fun kv => !(eodRequiredColumns.contains kv.1) }

/-- Sort order of the processed EOD table: ascending by date, `NaT` last. -/
def eodDateLe (a b : EodRow) : Bool := optLeAsc a.date b.date

/-- Process every record (the column-wise coercions of the source done
row-wise; a strict date-parse failure anywhere aborts, as
`pd.to_datetime` does). -/
def processEodRows : List RawRecord → Except String (List EodRow)
  | [] => .ok []
  | r :: rs => do
    let row ← processEodRow r
    let rows ← processEodRows rs
    .ok (row :: rows)

/-- `DataProcessor.process_eod_data`: empty input gives an empty table;
otherwise coerce the columns (the `date` column always exists after the
missing-column synthesis, so the frame is always date-converted and
date-sorted), sort ascending by date and renumber.  A failure anywhere is
wrapped as `DataProcessingError("Failed to process EOD data: ...")`. -/
def process_eod_data (raw : List RawRecord) : Except String (List EodRow) :=
  if raw.isEmpty then .ok []
  else
    match processEodRows raw with
    | .ok rows => .ok (sortByLe eodDateLe rows)
    | .error e => .error ("Failed to process EOD data: " ++ e)

/-- `pd.to_datetime(col, errors="coerce")` on one cell (used by the earnings
pipeline): unparseable values become `NaT` instead of raising. -/
def toDatetimeCoerce (v : Value) : Option ℤ :=
  match v with
  | .null => none
  | .num _ => some 19700101
  | .str s => parseDate s
  | .arr _ => none
  | .obj _ => none

/-- The columns the earnings pipeline touches. -/
def earningsTouchedColumns : List String :=
  ["date", "report_date", "earnings_date", "estimate", "actual", "difference", "surprise_pct"]

/-- One row of a processed earnings table.  An outer `none` means the column
is absent from the frame altogether (it is then also skipped by the
coercions and unavailable to the sort). -/
structure EarningsRow where
  date : Option (Option ℤ)
  report_date : Option (Option ℤ)
  earnings_date : Option (Option ℤ)
  estimate : Option (Option ℚ)
  actual : Option (Option ℚ)
  difference : Option (Option ℚ)
  surprise_pct : Option (Option ℚ)
  rest : RawRecord

/-- `DataProcessor.process_earnings_data`: date columns coerced with
`errors="coerce"`, numeric columns coerced, then sorted ascending by the
first present of `date`, `report_date`, `earnings_date`, and renumbered. -/
def process_earnings_data (raw : List RawRecord) : List EarningsRow :=
  if raw.isEmpty then []
  else
    let cols := dfColumns raw
    let dcell := fun (r : RawRecord) (c : String) =>
      if cols.contains c then some (toDatetimeCoerce (getCell r c)) else none
    let ncell := fun (r : RawRecord) (c : String) =>
      if cols.contains c then some (toNumeric (getCell r c)) else none
    let rows := raw.map fun r =>
      { date := dcell r "date"
        report_date := dcell r "report_date"
        earnings_date := dcell r "earnings_date"
        estimate := ncell r "estimate"
        actual := ncell r "actual"
        difference := ncell r "difference"
        surprise_pct := ncell r "surprise_pct"
        rest := r.filter fun kv => !(earningsTouchedColumns.contains kv.1) : EarningsRow }
    if cols.contains "date" then
      sortByLe (fun a b => optLeAsc a.date.join b.date.join) rows
    else if cols.contains "report_date" then
      sortByLe (fun a b => optLeAsc a.report_date.join b.report_date.join) rows
    else if cols.contains "earnings_date" then
      sortByLe (fun a b => optLeAsc a.earnings_date.join b.earnings_date.join) rows
    else rows

/-- The snake_case general-section schema of `process_fundamentals_data`:
`(target key, upstream PascalCase key)` pairs, in source order. -/
def generalFieldMap : List (String × String) :=
  [("code", "Code"), ("name", "Name"), ("type", "Type"),
   ("country", "CountryName"), ("currency", "CurrencyCode"),
   ("exchange", "Exchange"), ("sector", "Sector"), ("industry", "Industry"),
   ("description", "Description"), ("website", "WebURL"),
   ("market_cap", "MarketCapitalization"),
   ("shares_outstanding", "SharesOutstanding"),
   ("employees", "FullTimeEmployees")]

/-- The snake_case highlights-section schema of `process_fundamentals_data`. -/
def highlightsFieldMap : List (String × String) :=
  [("market_cap", "MarketCapitalization"), ("ebitda", "EBITDA"),
   ("pe_ratio", "PERatio"), ("peg_ratio", "PEGRatio"),
   ("wall_street_target_price", "WallStreetTargetPrice"),
   ("book_value", "BookValue"), ("dividend_share", "DividendShare"),
   ("dividend_yield", "DividendYield"), ("earnings_share", "EarningsShare"),
   ("eps_estimate_current_year", "EPSEstimateCurrentYear"),
   ("eps_estimate_next_year", "EPSEstimateNextYear"),
   ("eps_estimate_next_quarter", "EPSEstimateNextQuarter"),
   ("eps_estimate_current_quarter", "EPSEstimateCurrentQuarter"),
   ("most_recent_quarter", "MostRecentQuarter"),
   ("profit_margin", "ProfitMargin"),
   ("operating_margin_ttm", "OperatingMarginTTM"),
   ("return_on_assets_ttm", "ReturnOnAssetsTTM"),
   ("return_on_equity_ttm", "ReturnOnEquityTTM"),
   ("revenue_ttm", "RevenueTTM"),
   ("revenue_per_share_ttm", "RevenuePerShareTTM"),
   ("quarterly_revenue_growth_yoy", "QuarterlyRevenueGrowthYOY"),
   ("gross_profit_ttm", "GrossProfitTTM"),
   ("diluted_eps_ttm", "DilutedEpsTTM"),
   ("quarterly_earnings_growth_yoy", "QuarterlyEarningsGrowthYOY")]

/-- Rebuild a fixed-schema section from an upstream mapping: for each target
key, `section.get(SourceKey)` (null when absent).  `.get` on a non-mapping
raises (`AttributeError`), caught upstream as a `DataProcessingError`. -/
def buildSection (v : Value) (fieldMap : List (String × String)) :
    Except String RawRecord :=
  match v with
  | .obj fs => .ok (fieldMap.map fun kv => (kv.1, getCell fs kv.2))
  | _ => .error "value has no attribute get"

/-- The structured output of `process_fundamentals_data`; a `none` section
is a key absent from the result dict. -/
structure FundamentalsData where
  general : Option RawRecord
  highlights : Option RawRecord
  valuation : Option Value
  financials : Option Value
  technicals : Option Value

/-- The empty fundamentals result (`{}`). -/
def FundamentalsData.empty : FundamentalsData :=
  ⟨none, none, none, none, none⟩

/-- `DataProcessor.process_fundamentals_data`: map `General`/`Highlights`
(when present and truthy) through the fixed snake_case schemas; include
`Valuation` only when truthy, but `Financials`/`Technicals` whenever the key
is present; an empty input gives the empty result.  Failures wrap as
`DataProcessingError("Failed to process fundamental data: ...")`. -/
def process_fundamentals_data (raw : RawRecord) : Except String FundamentalsData :=
  if raw.isEmpty then .ok FundamentalsData.empty
  else
    let generalVal := (lookupField raw "General").getD (.obj [])
    let highlightsVal := (lookupField raw "Highlights").getD (.obj [])
    let valuationVal := (lookupField raw "Valuation").getD (.obj [])
    match
      (if generalVal.truthy then (buildSection generalVal generalFieldMap).map some
       else .ok none),
      (if highlightsVal.truthy then (buildSection highlightsVal highlightsFieldMap).map some
       else .ok none) with
    | .ok g, .ok h =>
      .ok { general := g
            highlights := h
            valuation := if valuationVal.truthy then some valuationVal else none
            financials := lookupField raw "Financials"
            technicals := lookupField raw "Technicals" }
    | .error e, _ => .error ("Failed to process fundamental data: " ++ e)
    | _, .error e => .error ("Failed to process fundamental data: " ++ e)

/-- `DataProcessor.extract_growth_rates`: read only the two quarterly YoY
growth keys of the highlights section; no highlights (or an empty/falsy
one) gives an empty summary.  The financials branch of the source is an
explicit no-op. -/
def extract_growth_rates (fundamentals : FundamentalsData) : RawRecord :=
  let hs := fundamentals.highlights.getD []
  if hs.isEmpty then []
  else
    [("quarterly_revenue_growth_yoy", getCell hs "quarterly_revenue_growth_yoy"),
     ("quarterly_earnings_growth_yoy", getCell hs "quarterly_earnings_growth_yoy")]

/-- The column names numerically coerced by `process_index_components`. -/
def compNumericColumns : List String :=
  ["weight", "Weight", "shares", "Shares", "market_value", "MarketValue"]

/-- One row of a processed index-components table.  An outer `none` in a
numeric field means the column is absent from the frame; `symbol` is `none`
when no symbol source column (`symbol`/`Symbol`/`Code`) exists. -/
structure CompRow where
  symbol : Option Value
  weight : Option (Option ℚ)
  Weight : Option (Option ℚ)
  shares : Option (Option ℚ)
  Shares : Option (Option ℚ)
  market_value : Option (Option ℚ)
  MarketValue : Option (Option ℚ)
  rest : RawRecord

/-- `DataProcessor.process_index_components`: derive the `symbol` column
from `symbol`, else `Symbol`, else `Code`; coerce the weight/shares/market
value columns (both spellings) to numeric; sort descending by `weight` if
that column exists, else by `Weight`; renumber rows. -/
def process_index_components (raw : List RawRecord) : List CompRow :=
  if raw.isEmpty then []
  else
    let cols := dfColumns raw
    let symbolSrc : Option String :=
      if cols.contains "symbol" then some "symbol"
      else if cols.contains "Symbol" then some "Symbol"
      else if cols.contains "Code" then some "Code"
      else none
    let ncell := fun (r : RawRecord) (c : String) =>
      if cols.contains c then some (toNumeric (getCell r c)) else none
    let rows := raw.map fun r =>
      { symbol := symbolSrc.map fun c => getCell r c
        weight := ncell r "weight"
        Weight := ncell r "Weight"
        shares := ncell r "shares"
        Shares := ncell r "Shares"
        market_value := ncell r "market_value"
        MarketValue := ncell r "MarketValue"
        rest := r.filter fun kv =>
          !(compNumericColumns.contains kv.1) && kv.1 != "symbol" : CompRow }
    if cols.contains "weight" then
      sortByLe (fun a b => optLeDesc a.weight.join b.weight.join) rows
    else if cols.contains "Weight" then
      sortByLe (fun a b => optLeDesc a.Weight.join b.Weight.join) rows
    else rows

/-- The component-mapping keys probed by `EODHDClient.get_index_components`,
in priority order. -/
def componentKeys : List String := ["Components", "components", "Holdings", "holdings"]

/-- First present key of `componentKeys` in the response mapping. -/
def findFirstKey (fields : RawRecord) : List String → Option Value
  | [] => none
  | k :: ks =>
    match lookupField fields k with
    | some v => some v
    | none => findFirstKey fields ks

/-- Flatten a components mapping keyed by symbol:
`[{'symbol': k, **v} for k, v in components.items()]`.  A later duplicate
key in `v` overrides the derived `symbol`; a non-mapping `v` raises
(`TypeError` on `**v`). -/
def flattenComponents (entries : List (String × Value)) : Except String (List Value) :=
  entries.mapM fun kv =>
    match kv.2 with
    | .obj vf =>
      .ok (.obj (if hasField vf "symbol" then vf else ("symbol", .str kv.1) :: vf))
    | _ => .error "argument after asterisks must be a mapping"

/-- The response post-processing of `EODHDClient.get_index_components`:
look for a components mapping under `componentKeys`; a found mapping is
flattened to a record sequence, a found non-mapping (list or otherwise) is
passed through, no key found wraps the whole response as a one-element
sequence; a non-mapping response is passed through. -/
def extract_components (response : Value) : Except String Value :=
  match response with
  | .obj fields =>
    match findFirstKey fields componentKeys with
    | some (.obj entries) => (flattenComponents entries).map Value.arr
    | some other => .ok other
    | none => .ok (.arr [response])
  | other => .ok other

/-- The projection of a table row seen by `calculate_average_volume`. -/
structure VolRow where
  date : Option ℤ
  volume : Option ℚ

/-- The frame handed to `calculate_average_volume`: which of the `date` and
`volume` columns exist, and the rows. -/
structure VolDf where
  hasDateCol : Bool
  hasVolumeCol : Bool
  rows : List VolRow

/-- Pandas `Series.mean()` over a window (skipna): the mean of the present
values.  Pandas yields `NaN` for an all-null window; like all other null
cells, that is represented by `none`. -/
def volMean (xs : List VolRow) : Option ℚ :=
  let vs := xs.filterMap VolRow.volume
  if vs.isEmpty then none else some (vs.sum / (vs.length : ℚ))

/-- `Series.tail(p)`: the trailing `p` rows. -/
def trailingRows (p : ℕ) (rows : List VolRow) : List VolRow :=
  rows.drop (rows.length - p)

/-- The rows in the order `calculate_average_volume` consumes them: sorted
ascending by date when a date column exists, input order otherwise. -/
def sortedVolRows (df : VolDf) : List VolRow :=
  if df.hasDateCol then sortByLe (fun a b => optLeAsc a.date b.date) df.rows
  else df.rows

/-- `DataProcessor.calculate_average_volume`: null for every period when the
frame is empty or has no volume column; otherwise sort ascending by date
when a date column exists and map each period `p` to the mean of the
trailing `p` volumes when at least `p` rows exist, null otherwise. -/
def calculate_average_volume (df : VolDf) (periods : List ℕ := [20, 60]) :
    List (ℕ × Option ℚ) :=
  if df.rows.isEmpty ∨ df.hasVolumeCol = false then periods.map fun p => (p, none)
  else
    let rows := sortedVolRows df
    periods.map fun p =>
      (p, if p ≤ rows.length then volMean (trailingRows p rows) else none)

/-- The tail of `Series.diff()`: each entry is the difference of two
adjacent values when both are present, null otherwise. -/
def seriesDiffGo (prev : Option ℚ) : List (Option ℚ) → List (Option ℚ)
  | [] => []
  | y :: ys =>
    (match prev, y with
     | some a, some b => some (b - a)
     | _, _ => none) :: seriesDiffGo y ys

/-- `Series.diff()` on a series with nulls: the first entry is null, and an
entry is the difference of two adjacent values when both are present, null
otherwise. -/
def seriesDiff : List (Option ℚ) → List (Option ℚ)
  | [] => []
  | x :: xs => none :: seriesDiffGo x xs

/-- `series.diff().dropna()`: the surviving successive differences. -/
def droppedDiffs (series : List (Option ℚ)) : List ℚ :=
  (seriesDiff series).filterMap id

/-- `DataProcessor._determine_trend`: `N/A` for an all-null series or when no
differences survive `dropna`; `increasing`/`decreasing` when all surviving
differences are strictly positive/negative; `mixed` otherwise. -/
def _determine_trend (series : List (Option ℚ)) : String :=
  if series.all Option.isNone then "N/A"
  else
    let diffs := droppedDiffs series
    if diffs.isEmpty then "N/A"
    else if diffs.all fun d => decide (0 < d) then "increasing"
    else if diffs.all fun d => decide (d < 0) then "decreasing"
    else "mixed"

/-! ## Tool surface (`server.py`)

Each MCP tool is embedded as a total `String`-valued function taking the
outcome of its API-client call as an explicit `Except EodhdError _`
argument (the network effect made explicit); totality *is* the boundary
property "the host never observes a thrown error".  The `datetime.now`
date-window defaulting only shapes the query string of the client call and
is therefore absorbed into that argument.  Textual rendering of values
reproduces the structure of the f-strings, not pandas' column layout. -/

/-- Rendering of a scalar value inside an f-string (`f"{value}"`); nested
containers are abbreviated, as no claim depends on their layout. -/
def renderValue : Value → String
  | .null => "None"
  | .num q => toString q
  | .str s => s
  | .arr _ => "[...]"
  | .obj _ => "\x7b...\x7d"

/-- Rendering of a nullable date cell. -/
def renderOptInt : Option ℤ → String
  | none => "NaT"
  | some d => toString d

/-- Rendering of a nullable numeric cell. -/
def renderOptRat : Option ℚ → String
  | none => "NaN"
  | some q => toString q

/-- Rendering of a possibly-absent nullable numeric column cell. -/
def renderOpt2Rat : Option (Option ℚ) → String
  | none => ""
  | some v => renderOptRat v

/-- One rendered row of an EOD table (`DataFrame.to_string` row). -/
def renderEodRow (r : EodRow) : String :=
  String.intercalate " "
    [renderOptInt r.date, renderOptRat r.open_, renderOptRat r.high,
     renderOptRat r.low, renderOptRat r.close, renderOptRat r.volume,
     String.intercalate " " (r.rest.map fun kv => renderValue kv.2)]

/-- `format_for_display(df, "eod")`. -/
def format_for_display_eod (rows : List EodRow) : String :=
  if rows.isEmpty then "No eod data available."
  else
    "Stock Price Data (" ++ toString rows.length ++ " records):\n" ++
      String.intercalate "\n" (rows.map renderEodRow)

/-- One rendered row of an earnings table. -/
def renderEarningsRow (r : EarningsRow) : String :=
  String.intercalate " "
    [(r.date.map renderOptInt).getD "", (r.report_date.map renderOptInt).getD "",
     (r.earnings_date.map renderOptInt).getD "", renderOpt2Rat r.estimate,
     renderOpt2Rat r.actual, renderOpt2Rat r.difference, renderOpt2Rat r.surprise_pct,
     String.intercalate " " (r.rest.map fun kv => renderValue kv.2)]

/-- `format_for_display(df, "earnings")`. -/
def format_for_display_earnings (rows : List EarningsRow) : String :=
  if rows.isEmpty then "No earnings data available."
  else
    "Earnings Calendar (" ++ toString rows.length ++ " records):\n" ++
      String.intercalate "\n" (rows.map renderEarningsRow)

/-- One rendered row of an index-components table. -/
def renderCompRow (r : CompRow) : String :=
  String.intercalate " "
    [(r.symbol.map renderValue).getD "", renderOpt2Rat r.weight,
     renderOpt2Rat r.Weight, renderOpt2Rat r.shares, renderOpt2Rat r.Shares,
     renderOpt2Rat r.market_value, renderOpt2Rat r.MarketValue,
     String.intercalate " " (r.rest.map fun kv => renderValue kv.2)]

/-- `format_for_display(df, "components")`. -/
def format_for_display_components (rows : List CompRow) : String :=
  if rows.isEmpty then "No components data available."
  else
    "Index Components (" ++ toString rows.length ++ " records):\n" ++
      String.intercalate "\n" (rows.map renderCompRow)

/-- `section.get(key, "N/A")` rendered in an f-string: the stored value when
the key is present (a stored null prints as `None`), `"N/A"` when absent. -/
def fundField (sec : RawRecord) (k : String) : String :=
  match lookupField sec k with
  | some v => renderValue v
  | none => "N/A"

/-- `format_for_display(data, "fundamentals")`: the fixed two-section
human-readable report. -/
def format_for_display_fundamentals (d : FundamentalsData) : String :=
  let generalLines :=
    match d.general with
    | some g =>
      ["=== GENERAL INFORMATION ===",
       "Company: " ++ fundField g "name",
       "Symbol: " ++ fundField g "code",
       "Sector: " ++ fundField g "sector",
       "Industry: " ++ fundField g "industry",
       "Market Cap: " ++ fundField g "market_cap",
       ""]
    | none => []
  let highlightLines :=
    match d.highlights with
    | some h =>
      ["=== KEY METRICS ===",
       "P/E Ratio: " ++ fundField h "pe_ratio",
       "EPS (TTM): " ++ fundField h "diluted_eps_ttm",
       "Revenue (TTM): " ++ fundField h "revenue_ttm",
       "Profit Margin: " ++ fundField h "profit_margin",
       "Dividend Yield: " ++ fundField h "dividend_yield"]
    | none => []
  String.intercalate "\n" (generalLines ++ highlightLines)

/-- The `except` cascade shared by every tool in `server.py`, in source
order: `except APIError` (which also catches the authentication, rate-limit
and not-found subclasses), then `except DataProcessingError`, then
`except Exception`. -/
def toolErrorString (e : EodhdError) : String :=
  if e.isAPIError then "API Error: " ++ e.message
  else
    match e with
    | .dataProcessing m => "Data Processing Error: " ++ m
    | _ => "Unexpected Error: " ++ e.message

/-- The category name the tool boundary assigns to an exception (the prefix
of the returned error string). -/
def errorCategory (e : EodhdError) : String :=
  if e.isAPIError then "API"
  else
    match e with
    | .dataProcessing _ => "Data Processing"
    | _ => "Unexpected"

theorem toolErrorString_eq (e : EodhdError) :
    toolErrorString e = errorCategory e ++ " Error: " ++ e.message := by
  cases e <;> simp [toolErrorString, errorCategory, EodhdError.isAPIError, EodhdError.message]

/-- The `get_stock_price` tool.  `fetch` is the outcome of
`client.get_eod_data(symbol, from_date, to_date, exchange)`. -/
def get_stock_price (symbol : String) (fetch : Except EodhdError (List RawRecord)) :
    String :=
  if pyStrip symbol = "" then "Error: Symbol is required"
  else
    match fetch with
    | .error e => toolErrorString e
    | .ok raw =>
      if raw.isEmpty then "No stock price data found for " ++ pyUpper (pyStrip symbol)
      else
        match process_eod_data raw with
        | .error m => toolErrorString (.dataProcessing m)
        | .ok df => format_for_display_eod df

/-- The `get_earnings_calendar` tool.  `fetch` is the outcome of
`client.get_earnings_calendar(from_date, to_date, symbols)`. -/
def get_earnings_calendar (fetch : Except EodhdError (List RawRecord)) : String :=
  match fetch with
  | .error e => toolErrorString e
  | .ok raw =>
    if raw.isEmpty then "No earnings calendar data found for the specified criteria"
    else format_for_display_earnings (process_earnings_data raw)

/-- The `get_fundamentals` tool.  `fetch` is the outcome of
`client.get_fundamentals(symbol, exchange)`. -/
def get_fundamentals (symbol : String) (fetch : Except EodhdError RawRecord) : String :=
  if pyStrip symbol = "" then "Error: Symbol is required"
  else
    match fetch with
    | .error e => toolErrorString e
    | .ok raw =>
      if raw.isEmpty then "No fundamental data found for " ++ pyUpper (pyStrip symbol)
      else
        match process_fundamentals_data raw with
        | .error m => toolErrorString (.dataProcessing m)
        | .ok d => format_for_display_fundamentals d

/-- The `get_index_components` tool.  `fetch` is the outcome of
`client.get_index_components(index_code)` (i.e. `_make_request` followed by
`extract_components`). -/
def get_index_components (index_code : String)
    (fetch : Except EodhdError (List RawRecord)) : String :=
  if pyStrip index_code = "" then "Error: Index code is required"
  else
    let code0 := pyUpper (pyStrip index_code)
    let code := if pyEndsWith code0 ".INDX" then code0 else code0 ++ ".INDX"
    match fetch with
    | .error e => toolErrorString e
    | .ok raw =>
      if raw.isEmpty then "No index components data found for " ++ code
      else format_for_display_components (process_index_components raw)

/-- `word.title()` on one word: first letter upper-cased, rest lower-cased. -/
def titleCaseWord (w : String) : String :=
  match w.data with
  | [] => ""
  | c :: cs => String.mk (c.toUpper :: cs.map Char.toLower)

/-- `metric.replace("_", " ").title()` for the underscore-joined metric
names appearing here. -/
def pyTitle (s : String) : String :=
  String.intercalate " " ((pySplitOn '_' s).map titleCaseWord)

/-- The `get_growth_rates` tool.  `fetch` is the outcome of
`client.get_fundamentals(symbol, exchange)`. -/
def get_growth_rates (symbol : String) (fetch : Except EodhdError RawRecord) : String :=
  if pyStrip symbol = "" then "Error: Symbol is required"
  else
    match fetch with
    | .error e => toolErrorString e
    | .ok raw =>
      if raw.isEmpty then "No fundamental data found for " ++ pyUpper (pyStrip symbol)
      else
        match process_fundamentals_data raw with
        | .error m => toolErrorString (.dataProcessing m)
        | .ok d =>
          let growth_rates := extract_growth_rates d
          if growth_rates.isEmpty then
            "No growth rate data available for " ++ pyUpper (pyStrip symbol)
          else
            let header := ["Growth Rates for " ++ pyUpper (pyStrip symbol) ++ ":",
                           String.mk (List.replicate 30 '=')]
            let lines := growth_rates.filterMap fun kv =>
              match kv.2 with
              | .null => none
              | v => some (pyTitle kv.1 ++ ": " ++ renderValue v)
            String.intercalate "\n" (header ++ lines)

/-- The comma-separated period list of the volume-averages tool. -/
def parsePeriods (s : String) : List ℕ :=
  (pySplitOn ',' s).filterMap fun t => pyToNat? (pyStrip t)

/-- Modelled from the spec: the `get_volume_averages` tool is referenced by
the repository's tests (`tests/test_volume_averages.py` imports it from the
server module and expects `"20-day Avg Volume"`, `"60-day Avg Volume"` and
`"Volume Ratio"` in its output) but its definition is not among the source
files.  Per §6 of the spec it takes `(symbol, periods="20,60")` and returns
a single formatted string; per §3 its Volume Average Summary maps each
requested period to a nullable mean volume over that trailing window
(delegated to the source-derived `calculate_average_volume`), plus a derived
quotient of the two averages when two periods are requested.  Validation and
error conversion follow the boundary pattern shared by all tools. -/
def get_volume_averages (symbol : String) (periods : String := "20,60")
    (fetch : Except EodhdError (List RawRecord) := .ok []) : String :=
  if pyStrip symbol = "" then "Error: Symbol is required"
  else
    match fetch with
    | .error e => toolErrorString e
    | .ok raw =>
      if raw.isEmpty then "No stock price data found for " ++ pyUpper (pyStrip symbol)
      else
        match process_eod_data raw with
        | .error m => toolErrorString (.dataProcessing m)
        | .ok df =>
          let voldf : VolDf := ⟨true, true, df.map fun r => ⟨r.date, r.volume⟩⟩
          let averages := calculate_average_volume voldf (parsePeriods periods)
          let avgLines := averages.map fun pa =>
            toString pa.1 ++ "-day Avg Volume: " ++ renderOptRat pa.2
          let quotientLines :=
            match averages with
            | [(p1, some a1), (p2, some a2)] =>
              if a2 = 0 then []
              else ["Volume Ratio (" ++ toString p1 ++ "-day / " ++ toString p2 ++
                    "-day): " ++ toString (a1 / a2)]
            | _ => []
          String.intercalate "\n"
            (("Volume Averages for " ++ pyUpper (pyStrip symbol) ++ ":") ::
              (avgLines ++ quotientLines))

/-! ## Claims -/

/-- **C1.**  For every tool invocation of the five exposed operations and
every error raised by the API client or the data processor during it, the
operation returns a string of the form `"<Category> Error: <message>"`
whose prefix names the category the boundary assigns to the error
(`API` for `APIError` and its authentication/rate-limit/not-found
subclasses, `Data Processing` for `DataProcessingError`, `Unexpected` for
everything else); no exception propagates to the host (each embedded tool
is a total `String`-valued function). -/
theorem c1_tool_errors_become_category_strings
    (symbol code : String) (e : EodhdError)
    (hs : pyStrip symbol ≠ "") (hc : pyStrip code ≠ "") :
    get_stock_price symbol (.error e) = errorCategory e ++ " Error: " ++ e.message ∧
    get_earnings_calendar (.error e) = errorCategory e ++ " Error: " ++ e.message ∧
    get_fundamentals symbol (.error e) = errorCategory e ++ " Error: " ++ e.message ∧
    get_index_components code (.error e) = errorCategory e ++ " Error: " ++ e.message ∧
    get_growth_rates symbol (.error e) = errorCategory e ++ " Error: " ++ e.message ∧
    (∀ raw m, raw.isEmpty = false → process_eod_data raw = .error m →
      get_stock_price symbol (.ok raw) = "Data Processing Error: " ++ m) := by
  refine ⟨?_, ?_, ?_, ?_, ?_, ?_⟩
  · simp [get_stock_price, hs, toolErrorString_eq]
  · simp [get_earnings_calendar, toolErrorString_eq]
  · simp [get_fundamentals, hs, toolErrorString_eq]
  · simp [get_index_components, hc, toolErrorString_eq]
  · simp [get_growth_rates, hs, toolErrorString_eq]
  · intro raw m hraw hproc
    simp [get_stock_price, hs, hraw, hproc, toolErrorString, EodhdError.isAPIError,
      EodhdError.message]

/-- Witness for C1 at a concrete invocation: a transport failure surfaced
by `get_stock_price` becomes the `Unexpected`-category error string. -/
theorem c1_witness :
    get_stock_price "AAPL"
        (Except.error (.network "Network error after 3 attempts: timeout")) =
      errorCategory (.network "Network error after 3 attempts: timeout") ++ " Error: " ++
        EodhdError.message (.network "Network error after 3 attempts: timeout") :=
  (c1_tool_errors_become_category_strings "AAPL" "GSPC" _ (by decide) (by decide)).1

/-- Helper for C2: a run in which every attempt yields HTTP 429 ends in
`RateLimitError` (induction along the retry loop). -/
theorem all429_loop (delay : ℚ) (maxRetries : ℕ) (attempts : ℕ → Attempt)
    (hall : ∀ i, ∃ b, attempts i = .response 429 b) :
    ∀ fuel k, fuel + k = maxRetries → k < maxRetries →
      (_make_request_loop delay maxRetries attempts fuel k).1 =
        .error (.rateLimit "API rate limit exceeded" (some 429)) := by
  intro fuel
  induction fuel with
  | zero => intro k h1 h2; omega
  | succ f ih =>
    intro k h1 h2
    obtain ⟨b, hb⟩ := hall k
    simp only [_make_request_loop, hb]
    by_cases hk : k < maxRetries - 1
    · rw [if_pos (by exact ⟨by norm_num, hk⟩)]
      exact ih (k + 1) (by omega) (by omega)
    · rw [if_neg (by intro hcon; exact hk hcon.2)]
      simp [_handle_response]

/-- **C2.**  On the shared request path: a 401 response fails immediately
with `AuthenticationError` and no retry sleep; a 404 fails immediately with
`DataNotFoundError`; any other status ≥ 400 except 429 fails immediately
with `APIError` carrying the status code; a retry sleep only ever happens
for a 429 response or a transport failure; and a run in which every attempt
returns 429 fails with `RateLimitError`. -/
theorem c2_response_classification (delay : ℚ) (maxRetries : ℕ)
    (attempts : ℕ → Attempt) :
    (∀ fuel k body, attempts k = .response 401 body →
      _make_request_loop delay maxRetries attempts (fuel + 1) k =
        (.error (.authentication "Invalid API key" (some 401)), [])) ∧
    (∀ fuel k body, attempts k = .response 404 body →
      _make_request_loop delay maxRetries attempts (fuel + 1) k =
        (.error (.dataNotFound "Data not found" (some 404)), [])) ∧
    (∀ fuel k body s, attempts k = .response s body →
      400 ≤ s → s ≠ 429 → s ≠ 401 → s ≠ 404 →
      _make_request_loop delay maxRetries attempts (fuel + 1) k =
        (.error (.api ("API error: " ++ toString s) (some s)), [])) ∧
    (∀ fuel k, (_make_request_loop delay maxRetries attempts fuel k).2 ≠ [] →
      (∃ b, attempts k = .response 429 b) ∨ (∃ m, attempts k = .requestError m)) ∧
    (1 ≤ maxRetries → (∀ i, ∃ b, attempts i = .response 429 b) →
      (_make_request delay maxRetries attempts).1 =
        .error (.rateLimit "API rate limit exceeded" (some 429))) := by
  refine ⟨?_, ?_, ?_, ?_, ?_⟩
  · intro fuel k body hb
    simp only [_make_request_loop, hb]
    rw [if_neg (by simp)]
    simp [_handle_response]
  · intro fuel k body hb
    simp only [_make_request_loop, hb]
    rw [if_neg (by simp)]
    simp [_handle_response]
  · intro fuel k body s hb h400 h429 h401 h404
    simp only [_make_request_loop, hb]
    rw [if_neg (by intro hcon; exact h429 hcon.1)]
    simp [_handle_response, h401, h404, h429, h400]
  · intro fuel k hne
    match fuel with
    | 0 => simp [_make_request_loop] at hne
    | f + 1 =>
      cases hatt : attempts k with
      | response s b =>
        simp only [_make_request_loop, hatt] at hne
        by_cases hc : s = 429 ∧ k < maxRetries - 1
        · exact Or.inl ⟨b, by rw [hc.1]⟩
        · rw [if_neg hc] at hne
          simp at hne
      | requestError m =>
        simp only [_make_request_loop, hatt] at hne
        by_cases hc : k = maxRetries - 1
        · rw [if_pos hc] at hne
          simp at hne
        · exact Or.inr ⟨m, rfl⟩
  · intro hmax hall
    exact all429_loop delay maxRetries attempts hall maxRetries 0 (by omega) (by omega)

/-- Witness for C2 at a concrete run: three attempts all returning 429 end
in `RateLimitError`. -/
theorem c2_witness :
    (_make_request 1 3 (fun _ => Attempt.response 429 (Except.ok Value.null))).1 =
      Except.error (.rateLimit "API rate limit exceeded" (some 429)) :=
  (c2_response_classification 1 3 _).2.2.2.2 (by decide)
    (fun _ => ⟨Except.ok Value.null, rfl⟩)

/-- The attempt sequence of C3: HTTP 429 on attempts 0 and 1, HTTP 200 with
a valid JSON body on attempt 2. -/
def c3Attempts (v : Value) : ℕ → Attempt := fun k =>
  if k < 2 then .response 429 (.ok .null) else .response 200 (.ok v)

/-- **C3.**  With `max_retries = 3` and 429 on the first two attempts then
200 with a valid body, `_make_request` succeeds on the third attempt and
the forced delays slept are `retry_base_delay * 2^0` and
`retry_base_delay * 2^1`, totalling `retry_base_delay * (1 + 2)`. -/
theorem c3_succeeds_on_third_attempt (delay : ℚ) (v : Value) :
    _make_request delay 3 (c3Attempts v) = (.ok v, [delay * 2 ^ 0, delay * 2 ^ 1]) ∧
    delay * 2 ^ 0 + delay * 2 ^ 1 = delay * (1 + 2) := by
  constructor
  · simp [_make_request, _make_request_loop, c3Attempts, _handle_response]
  · ring

theorem sortedVolRows_length (df : VolDf) :
    (sortedVolRows df).length = df.rows.length := by
  unfold sortedVolRows
  by_cases h : df.hasDateCol = true
  · simp [h, length_sortByLe]
  · simp [h]

theorem trailingRows_length (p : ℕ) (rows : List VolRow) (h : p ≤ rows.length) :
    (trailingRows p rows).length = p := by
  simp [trailingRows]
  omega

theorem length_filterMap_of_all_some {α β : Type} (f : α → Option β) (l : List α)
    (h : ∀ x ∈ l, (f x).isSome = true) : (l.filterMap f).length = l.length := by
  induction l with
  | nil => rfl
  | cons a as ih =>
    have ha := h a (List.mem_cons_self a as)
    obtain ⟨b, hb⟩ := Option.isSome_iff_exists.mp ha
    simp [List.filterMap_cons, hb, ih fun x hx => h x (List.mem_cons_of_mem a hx)]

/-- The 60-row frame with volumes 1..60 (dates ascending). -/
def vols60 : VolDf :=
  ⟨true, true, (List.range 60).map fun (i : ℕ) =>
    { date := some ((i : ℤ) + 1), volume := some ((Nat.cast (i + 1) : ℚ)) }⟩

/-- The trailing 20 volumes of `vols60`. -/
def tail20 : List ℚ :=
  [41, 42, 43, 44, 45, 46, 47, 48, 49, 50,
   51, 52, 53, 54, 55, 56, 57, 58, 59, 60]

/-- All 60 volumes of `vols60`. -/
def tail60 : List ℚ :=
  [1, 2, 3, 4, 5, 6, 7, 8, 9, 10, 11, 12, 13, 14, 15,
   16, 17, 18, 19, 20, 21, 22, 23, 24, 25, 26, 27, 28, 29, 30,
   31, 32, 33, 34, 35, 36, 37, 38, 39, 40, 41, 42, 43, 44, 45,
   46, 47, 48, 49, 50, 51, 52, 53, 54, 55, 56, 57, 58, 59, 60]

/-- A small three-row frame used by the C4 witness. -/
def c4SmallDf : VolDf :=
  ⟨true, true, [⟨some 1, some 2⟩, ⟨some 2, some 4⟩, ⟨some 3, some 6⟩]⟩

/-- **C4.**  `calculate_average_volume` maps a requested period `p` to null
when the table has fewer than `p` rows; an empty table or a table without a
volume column maps every requested period to null; with at least `p` rows
(and the volumes of the trailing window present) it returns exactly the
arithmetic mean of the trailing `p` volume values of the date-ordered
table; and for volumes 1..60 it returns 50.5 for period 20 and 30.5 for
period 60. -/
theorem c4_calculate_average_volume (df : VolDf) (periods : List ℕ) (p : ℕ) :
    (p ∈ periods → df.rows.length < p →
      (p, (none : Option ℚ)) ∈ calculate_average_volume df periods) ∧
    ((df.rows.isEmpty = true ∨ df.hasVolumeCol = false) →
      calculate_average_volume df periods = periods.map fun q => (q, none)) ∧
    (df.hasVolumeCol = true → df.rows.isEmpty = false → p ∈ periods → 0 < p →
      p ≤ df.rows.length →
      (∀ r ∈ trailingRows p (sortedVolRows df), r.volume.isSome = true) →
      (p, some (((trailingRows p (sortedVolRows df)).filterMap VolRow.volume).sum / (p : ℚ)))
        ∈ calculate_average_volume df periods) ∧
    calculate_average_volume vols60 [20, 60] =
      [(20, some ((101 : ℚ) / 2)), (60, some ((61 : ℚ) / 2))] := by
  refine ⟨?_, ?_, ?_, ?_⟩
  · intro hp hlen
    unfold calculate_average_volume
    by_cases hg : df.rows.isEmpty = true ∨ df.hasVolumeCol = false
    · rw [if_pos (by simpa using hg)]
      exact List.mem_map.mpr ⟨p, hp, rfl⟩
    · rw [if_neg (by simpa using hg)]
      refine List.mem_map.mpr ⟨p, hp, ?_⟩
      rw [if_neg (by rw [sortedVolRows_length]; omega)]
  · intro hg
    unfold calculate_average_volume
    rw [if_pos (by simpa using hg)]
  · intro hvol hne hp hppos hplen hall
    unfold calculate_average_volume
    rw [if_neg (by simp [hne, hvol])]
    refine List.mem_map.mpr ⟨p, hp, ?_⟩
    rw [if_pos (by rw [sortedVolRows_length]; exact hplen)]
    unfold volMean
    have hlen : ((trailingRows p (sortedVolRows df)).filterMap VolRow.volume).length = p := by
      rw [length_filterMap_of_all_some _ _ hall,
        trailingRows_length p _ (by rw [sortedVolRows_length]; exact hplen)]
    rw [if_neg (by rw [List.isEmpty_iff_length_eq_zero, hlen]; omega)]
    rw [hlen]
  · have hshape : calculate_average_volume vols60 [20, 60] =
        [(20, volMean (trailingRows 20 (sortedVolRows vols60))),
         (60, volMean (trailingRows 60 (sortedVolRows vols60)))] := rfl
    rw [hshape]
    have h20 : (trailingRows 20 (sortedVolRows vols60)).filterMap VolRow.volume =
        tail20 := by decide
    have h60 : (trailingRows 60 (sortedVolRows vols60)).filterMap VolRow.volume =
        tail60 := by decide
    unfold volMean
    rw [h20, h60]
    norm_num [tail20, tail60]

/-- Witness for C4 at a concrete frame: the mean of the trailing two of
three volumes. -/
theorem c4_witness :
    (2, some (((trailingRows 2 (sortedVolRows c4SmallDf)).filterMap VolRow.volume).sum / (2 : ℚ)))
      ∈ calculate_average_volume c4SmallDf [2] :=
  (c4_calculate_average_volume c4SmallDf [2] 2).2.2.1 (by decide) (by decide)
    (by decide) (by decide) (by decide) (by decide)

/-- A record is a well-formed EOD record for the date pipeline: it has a
`date` key holding a parseable date string. -/
def wellFormedEod (r : RawRecord) : Bool :=
  match lookupField r "date" with
  | some (.str s) => (parseDate s).isSome
  | _ => false

theorem processEodRow_ok_of_wf (r : RawRecord) (h : wellFormedEod r = true) :
    ∃ row, processEodRow r = .ok row ∧ row.date.isSome = true := by
  unfold wellFormedEod at h
  cases hl : lookupField r "date" with
  | none => rw [hl] at h; simp at h
  | some v =>
    cases v with
    | str s =>
      rw [hl] at h
      obtain ⟨d, hd⟩ := Option.isSome_iff_exists.mp h
      refine ⟨{ date := some d,
                open_ := toNumeric (getCell r "open"),
                high := toNumeric (getCell r "high"),
                low := toNumeric (getCell r "low"),
                close := toNumeric (getCell r "close"),
                volume := toNumeric (getCell r "volume"),
                rest := r.filter fun kv => !(eodRequiredColumns.contains kv.1) },
              ?_, rfl⟩
      unfold processEodRow toDatetime getCell
      rw [hl]
      simp only [Option.getD_some, hd]
      rfl
    | null => rw [hl] at h; simp at h
    | num q => rw [hl] at h; simp at h
    | arr xs => rw [hl] at h; simp at h
    | obj fields => rw [hl] at h; simp at h

theorem processEodRows_ok (raw : List RawRecord)
    (h : ∀ r ∈ raw, wellFormedEod r = true) :
    ∃ rows, processEodRows raw = .ok rows ∧ rows.length = raw.length ∧
      ∀ row ∈ rows, row.date.isSome = true ∧ ∃ r ∈ raw, processEodRow r = .ok row := by
  induction raw with
  | nil => exact ⟨[], rfl, rfl, by simp⟩
  | cons r rs ih =>
    obtain ⟨row, hrow, hdate⟩ :=
      processEodRow_ok_of_wf r (h r (List.mem_cons_self r rs))
    obtain ⟨rows, hrows, hlen, hmem⟩ :=
      ih fun x hx => h x (List.mem_cons_of_mem r hx)
    refine ⟨row :: rows, ?_, by simp [hlen], ?_⟩
    · unfold processEodRows
      rw [hrow, hrows]
      rfl
    · intro x hx
      rcases List.mem_cons.mp hx with hx | hx'
      · subst hx
        exact ⟨hdate, r, List.mem_cons_self r rs, hrow⟩
      · obtain ⟨hd, rr, hrr, he⟩ := hmem x hx'
        exact ⟨hd, rr, List.mem_cons_of_mem r hrr, he⟩

/-- **C6.**  On a list of N well-formed OHLCV records `process_eod_data`
succeeds with a table of length N, sorted ascending by date, every row
carrying a parsed date and the numeric coercions of its source record (the
six required columns in the row type, rows positional from 0); the empty
list yields the empty table without error. -/
theorem c6_process_eod_data_roundtrip (raw : List RawRecord)
    (h : ∀ r ∈ raw, wellFormedEod r = true) :
    (∃ table, process_eod_data raw = .ok table ∧
      table.length = raw.length ∧
      List.Chain' (fun a b => eodDateLe a b = true) table ∧
      ∀ row ∈ table, row.date.isSome = true ∧
        ∃ r ∈ raw, processEodRow r = .ok row) ∧
    process_eod_data [] = .ok [] := by
  refine ⟨?_, rfl⟩
  by_cases hemp : raw.isEmpty = true
  · have hnil : raw = [] := List.isEmpty_iff.mp hemp
    subst hnil
    exact ⟨[], rfl, rfl, List.chain'_nil, by simp⟩
  · obtain ⟨rows, h1, h2, h3⟩ := processEodRows_ok raw h
    refine ⟨sortByLe eodDateLe rows, ?_, ?_, ?_, ?_⟩
    · unfold process_eod_data
      rw [if_neg hemp, h1]
    · rw [length_sortByLe, h2]
    · exact chain_sortByLe eodDateLe
        (fun a b => optLeAsc_total a.date b.date) rows
    · intro row hrow
      exact h3 row ((mem_sortByLe eodDateLe row rows).mp hrow)

/-- A concrete two-record input for the C6 witness, dates out of order. -/
def c6Raw : List RawRecord :=
  [[("date", .str "2024-01-02"), ("open", .num 2), ("high", .num 2),
    ("low", .num 2), ("close", .num 2), ("volume", .num 200)],
   [("date", .str "2024-01-01"), ("open", .num 1), ("high", .num 1),
    ("low", .num 1), ("close", .num 1), ("volume", .num 100)]]

/-- Witness for C6 at a concrete out-of-order two-record input. -/
theorem c6_witness :
    (∃ table, process_eod_data c6Raw = .ok table ∧
      table.length = c6Raw.length ∧
      List.Chain' (fun a b => eodDateLe a b = true) table ∧
      ∀ row ∈ table, row.date.isSome = true ∧
        ∃ r ∈ c6Raw, processEodRow r = .ok row) ∧
    process_eod_data [] = .ok [] :=
  c6_process_eod_data_roundtrip c6Raw (by decide)

theorem seriesDiffGo_some_mem {d : ℚ} (prev : Option ℚ) (l : List (Option ℚ))
    (h : some d ∈ seriesDiffGo prev l) : ∃ q : ℚ, some q ∈ l := by
  induction l generalizing prev with
  | nil => simp [seriesDiffGo] at h
  | cons y ys ih =>
    simp only [seriesDiffGo, List.mem_cons] at h
    rcases h with h | h
    · cases prev with
      | none => cases y <;> simp at h
      | some a =>
        cases y with
        | none => simp at h
        | some b => exact ⟨b, List.mem_cons_self _ _⟩
    · obtain ⟨q, hq⟩ := ih y h
      exact ⟨q, List.mem_cons_of_mem _ hq⟩

theorem droppedDiffs_nonempty_not_all_none (series : List (Option ℚ))
    (h : (droppedDiffs series).isEmpty = false) :
    series.all Option.isNone = false := by
  obtain ⟨d, hd⟩ : ∃ d, d ∈ droppedDiffs series := by
    cases hpd : droppedDiffs series with
    | nil => rw [hpd] at h; simp at h
    | cons a as => exact ⟨a, List.mem_cons_self _ _⟩
  have hmem : some d ∈ seriesDiff series := by
    unfold droppedDiffs at hd
    obtain ⟨x, hx, hxd⟩ := List.mem_filterMap.mp hd
    cases x with
    | none => simp at hxd
    | some q => simp at hxd; rw [hxd] at hx; exact hx
  cases series with
  | nil => simp [seriesDiff] at hmem
  | cons x xs =>
    simp only [seriesDiff, List.mem_cons] at hmem
    rcases hmem with h1 | h1
    · simp at h1
    · obtain ⟨q, hq⟩ := seriesDiffGo_some_mem x xs h1
      rcases Bool.eq_false_or_eq_true ((x :: xs).all Option.isNone) with hb | hb
      · exfalso
        have := List.all_eq_true.mp hb (some q) (List.mem_cons_of_mem _ hq)
        simp at this
      · exact hb

/-- **C7.**  `_determine_trend` yields `N/A` on an all-null series and when
no successive differences survive `dropna`; `increasing` when all surviving
differences are strictly positive; `decreasing` when all are strictly
negative; `mixed` otherwise — in particular any zero difference (plateau)
forces `mixed`. -/
theorem c7_determine_trend (series : List (Option ℚ)) :
    (series.all Option.isNone = true → _determine_trend series = "N/A") ∧
    ((droppedDiffs series).isEmpty = true → _determine_trend series = "N/A") ∧
    ((droppedDiffs series).isEmpty = false →
      (∀ d ∈ droppedDiffs series, 0 < d) → _determine_trend series = "increasing") ∧
    ((droppedDiffs series).isEmpty = false →
      (∀ d ∈ droppedDiffs series, d < 0) → _determine_trend series = "decreasing") ∧
    ((droppedDiffs series).isEmpty = false →
      ¬(∀ d ∈ droppedDiffs series, 0 < d) → ¬(∀ d ∈ droppedDiffs series, d < 0) →
      _determine_trend series = "mixed") ∧
    ((0 : ℚ) ∈ droppedDiffs series → _determine_trend series = "mixed") := by
  have hfalse_pos : ∀ d ∈ droppedDiffs series, ¬(0 < d) →
      (droppedDiffs series).all (fun x => decide (0 < x)) = false := by
    intro d hd hnd
    rcases Bool.eq_false_or_eq_true ((droppedDiffs series).all fun x => decide (0 < x))
      with hb | hb
    · exact absurd (of_decide_eq_true (List.all_eq_true.mp hb d hd)) hnd
    · exact hb
  have hfalse_neg : ∀ d ∈ droppedDiffs series, ¬(d < 0) →
      (droppedDiffs series).all (fun x => decide (x < 0)) = false := by
    intro d hd hnd
    rcases Bool.eq_false_or_eq_true ((droppedDiffs series).all fun x => decide (x < 0))
      with hb | hb
    · exact absurd (of_decide_eq_true (List.all_eq_true.mp hb d hd)) hnd
    · exact hb
  refine ⟨?_, ?_, ?_, ?_, ?_, ?_⟩
  · intro h
    simp [_determine_trend, h]
  · intro h
    by_cases hn : series.all Option.isNone = true
    · simp [_determine_trend, hn]
    · simp [_determine_trend, hn, h]
  · intro hne hpos
    have hnn := droppedDiffs_nonempty_not_all_none series hne
    have hall : (droppedDiffs series).all (fun x => decide (0 < x)) = true :=
      List.all_eq_true.mpr fun d hd => decide_eq_true (hpos d hd)
    simp [_determine_trend, hnn, hne, hall]
  · intro hne hneg
    have hnn := droppedDiffs_nonempty_not_all_none series hne
    obtain ⟨d, hd⟩ : ∃ d, d ∈ droppedDiffs series := by
      cases hpd : droppedDiffs series with
      | nil => rw [hpd] at hne; simp at hne
      | cons a as => exact ⟨a, List.mem_cons_self _ _⟩
    have hap := hfalse_pos d hd (not_lt.mpr (le_of_lt (hneg d hd)))
    have hall : (droppedDiffs series).all (fun x => decide (x < 0)) = true :=
      List.all_eq_true.mpr fun x hx => decide_eq_true (hneg x hx)
    simp [_determine_trend, hnn, hne, hap, hall]
  · intro hne hnp hnn'
    have hnn := droppedDiffs_nonempty_not_all_none series hne
    obtain ⟨d1, hd1, hnd1⟩ : ∃ d ∈ droppedDiffs series, ¬(0 < d) := by
      by_contra hc
      push_neg at hc
      exact hnp hc
    obtain ⟨d2, hd2, hnd2⟩ : ∃ d ∈ droppedDiffs series, ¬(d < 0) := by
      by_contra hc
      push_neg at hc
      exact hnn' hc
    have hap := hfalse_pos d1 hd1 hnd1
    have han := hfalse_neg d2 hd2 hnd2
    simp [_determine_trend, hnn, hne, hap, han]
  · intro h0
    have hne : (droppedDiffs series).isEmpty = false := by
      cases hpd : droppedDiffs series with
      | nil => rw [hpd] at h0; simp at h0
      | cons a as => rfl
    have hnn := droppedDiffs_nonempty_not_all_none series hne
    have hap := hfalse_pos 0 h0 (lt_irrefl 0)
    have han := hfalse_neg 0 h0 (lt_irrefl 0)
    simp [_determine_trend, hnn, hne, hap, han]

/-- Witness for C7: a strictly increasing three-point series is classified
`increasing`. -/
theorem c7_witness : _determine_trend [some 1, some 2, some 3] = "increasing" :=
  (c7_determine_trend [some 1, some 2, some 3]).2.2.1
    (by simp [droppedDiffs, seriesDiff, seriesDiffGo])
    (by norm_num [droppedDiffs, seriesDiff, seriesDiffGo])

/-- The upstream response of C8. -/
def c8Response : Value :=
  .obj [("Components", .obj [("AAPL", .obj [("weight", .num 5)]),
                             ("MSFT", .obj [("weight", .num 3)])])]

/-- The record sequence C8's response flattens to. -/
def c8Flattened : List RawRecord :=
  [[("symbol", .str "AAPL"), ("weight", .num 5)],
   [("symbol", .str "MSFT"), ("weight", .num 3)]]

/-- **C8.**  The client-side extraction flattens the components mapping
(each record gaining a `symbol` field from its key), and processing yields
a two-row table sorted descending by weight with symbols `AAPL` then
`MSFT`. -/
theorem c8_index_components_pipeline :
    extract_components c8Response =
      .ok (.arr [.obj [("symbol", .str "AAPL"), ("weight", .num 5)],
                 .obj [("symbol", .str "MSFT"), ("weight", .num 3)]]) ∧
    process_index_components c8Flattened =
      [{ symbol := some (.str "AAPL"), weight := some (some 5), Weight := none,
         shares := none, Shares := none, market_value := none,
         MarketValue := none, rest := [] },
       { symbol := some (.str "MSFT"), weight := some (some 3), Weight := none,
         shares := none, Shares := none, market_value := none,
         MarketValue := none, rest := [] }] ∧
    (process_index_components c8Flattened).map CompRow.symbol =
      [some (.str "AAPL"), some (.str "MSFT")] ∧
    List.Chain' (fun a b => optLeDesc a.weight.join b.weight.join = true)
      (process_index_components c8Flattened) := by
  refine ⟨rfl, rfl, rfl, ?_⟩
  rw [show process_index_components c8Flattened =
      [{ symbol := some (.str "AAPL"), weight := some (some 5), Weight := none,
         shares := none, Shares := none, market_value := none,
         MarketValue := none, rest := [] },
       { symbol := some (.str "MSFT"), weight := some (some 3), Weight := none,
         shares := none, Shares := none, market_value := none,
         MarketValue := none, rest := [] }] from rfl]
  exact List.chain'_cons.mpr ⟨by decide, List.chain'_singleton _⟩

/-- **C10.**  Date parsing in `process_eod_data` is strict: an unparseable
date string raises `DataProcessingError` instead of coercing to null,
whereas an unparseable numeric field is coerced to null. -/
theorem c10_strict_date_parsing :
    process_eod_data [[("date", Value.str "not-a-date")]] =
      .error "Failed to process EOD data: Unknown datetime string format: not-a-date" ∧
    process_eod_data [[("date", Value.str "2024-01-01"), ("open", Value.str "garbage")]] =
      .ok [{ date := some 20240101, open_ := none, high := none, low := none,
             close := none, volume := none, rest := [] }] :=
  ⟨rfl, rfl⟩

/-- Shape of a successful `get_volume_averages` run with two requested
periods, both averages present and the second nonzero: one line per period
plus the derived quotient line. -/
theorem get_volume_averages_formats (symbol periods : String)
    (raw : List RawRecord) (df : List EodRow) (p1 p2 : ℕ) (a1 a2 : ℚ)
    (hsym : pyStrip symbol ≠ "")
    (hraw : raw.isEmpty = false)
    (hdf : process_eod_data raw = .ok df)
    (hav : calculate_average_volume ⟨true, true, df.map fun r => ⟨r.date, r.volume⟩⟩
        (parsePeriods periods) = [(p1, some a1), (p2, some a2)])
    (ha2 : a2 ≠ 0) :
    get_volume_averages symbol periods (.ok raw) =
      String.intercalate "\n"
        ["Volume Averages for " ++ pyUpper (pyStrip symbol) ++ ":",
         toString p1 ++ "-day Avg Volume: " ++ toString a1,
         toString p2 ++ "-day Avg Volume: " ++ toString a2,
         "Volume Ratio (" ++ toString p1 ++ "-day / " ++ toString p2 ++ "-day): " ++
           toString (a1 / a2)] := by
  unfold get_volume_averages
  rw [if_neg hsym]
  simp only [hraw, hdf, Bool.false_eq_true, if_false, hav, List.map_cons,
    List.map_nil, renderOptRat, if_neg ha2]
  rfl

/-- A two-digit zero-padded day/month component. -/
def date2 (n : ℕ) : String := (if n < 10 then "0" else "") ++ toString n

/-- An 80-day EOD payload with volumes 1 (oldest 20 rows), 2 (next 40) and
8 (latest 20), so that the trailing means are the integers 8 and 4. -/
def rawVol80 : List RawRecord :=
  (List.range 80).map fun (i : ℕ) =>
    [("date", .str ("2024-" ++ date2 (i / 28 + 1) ++ "-" ++ date2 (i % 28 + 1))),
     ("open", .num 1), ("high", .num 1), ("low", .num 1), ("close", .num 1),
     ("volume", .num (if i < 20 then 1 else if i < 60 then 2 else 8))]

/-- The `yyyymmdd` code of row `i` of `rawVol80`. -/
def dateCode (i : ℕ) : ℤ :=
  ((20240000 + (i / 28 + 1) * 100 + (i % 28 + 1) : ℕ) : ℤ)

/-- The processed table of `rawVol80`. -/
def eodRows80 : List EodRow :=
  (List.range 80).map fun (i : ℕ) =>
    { date := some (dateCode i), open_ := some 1, high := some 1, low := some 1,
      close := some 1,
      volume := some (if i < 20 then 1 else if i < 60 then 2 else 8), rest := [] }

set_option maxRecDepth 40000 in
/-- **C5.**  The volume-averages operation takes `(symbol, periods="20,60")`
and returns a single formatted string; its summary maps each requested
period to the nullable trailing mean computed by `calculate_average_volume`
and, with two periods requested, also carries the derived quotient of the
two averages; on the 80-row payload the full run produces exactly one line
per period plus the quotient line. -/
theorem c5_volume_averages_tool :
    parsePeriods "20,60" = [20, 60] ∧
    get_volume_averages "TEST" "20,60" (.ok rawVol80) =
      "Volume Averages for TEST:\n20-day Avg Volume: 8\n60-day Avg Volume: 4\n" ++
        "Volume Ratio (20-day / 60-day): 2" := by
  refine ⟨rfl, ?_⟩
  have hav : calculate_average_volume
      ⟨true, true, eodRows80.map fun r => ⟨r.date, r.volume⟩⟩
      (parsePeriods "20,60") = [(20, some 8), (60, some 4)] := by
    have hshape : calculate_average_volume
        ⟨true, true, eodRows80.map fun r => ⟨r.date, r.volume⟩⟩
        (parsePeriods "20,60") =
        [(20, volMean (trailingRows 20 (sortedVolRows
           ⟨true, true, eodRows80.map fun r => ⟨r.date, r.volume⟩⟩))),
         (60, volMean (trailingRows 60 (sortedVolRows
           ⟨true, true, eodRows80.map fun r => ⟨r.date, r.volume⟩⟩)))] := rfl
    have h20 : (trailingRows 20 (sortedVolRows
        ⟨true, true, eodRows80.map fun r => ⟨r.date, r.volume⟩⟩)).filterMap
          VolRow.volume = List.replicate 20 (8 : ℚ) := by decide
    have h60 : (trailingRows 60 (sortedVolRows
        ⟨true, true, eodRows80.map fun r => ⟨r.date, r.volume⟩⟩)).filterMap
          VolRow.volume = List.replicate 40 (2 : ℚ) ++ List.replicate 20 8 := by
      decide
    rw [hshape]
    unfold volMean
    rw [h20, h60]
    norm_num [List.sum_replicate, List.sum_append, nsmul_eq_mul]
  have h := get_volume_averages_formats "TEST" "20,60" rawVol80 eodRows80
    20 60 8 4 (by decide) (by decide) rfl hav (by norm_num)
  rw [h, show (8 : ℚ) / 4 = 2 from by norm_num]
  rfl
